import Mathlib

/-!
Verification of the Invoice-Tracker reporting aggregator and related
invoice-handling code.

The development shallowly embeds the TypeScript source:

* types.ts gives the data model (InvoiceStatus, Invoice, InvoiceItem).
* The Dashboard component (unnamed part 000) gives the four summary
  scalars, the helper getLast6Months, and the two chart series
  barChartData and lineChartData.
* InvoiceEditor.tsx gives calculateTotal and handleSubmit.
* storage.ts gives the save/read field mappings between the frontend
  Invoice shape and the database row shape.
* The InvoiceList component (unnamed part 001) gives the spreadsheet
  row normalization inside handleFileChange.

Modelling conventions:

* JavaScript numbers are modelled as exact integers (Int).  Every
  operation the claims touch is addition, multiplication and comparison,
  all exact in the source up to float rounding, which is out of scope.
* The Dashboard reads an invoice date only through
  getMonth and getFullYear of the JS expression new Date(inv.date), so an
  invoice date is embedded as Option (Nat x Int): some (month, year) with
  month in 0..11, or none for an unparseable string (an Invalid Date,
  whose getMonth and getFullYear are NaN and compare false against every
  number).  The due date is embedded the same way; the Dashboard never
  reads it.
* The current wall-clock date is a JSDate record (year, month 0..11,
  day 1..31).  The JS mutation d.setMonth(d.getMonth() - i) is embedded
  as jsSetMonth, including the JS normalization of a day-of-month that
  overflows the target month into the following month.
-/

/-- Status enum from types.ts: draft, pending, paid, overdue. -/
inductive InvoiceStatus where
  | draft
  | pending
  | paid
  | overdue
deriving DecidableEq

/-- Direction union type from types.ts: outgoing (income) or incoming (expense). -/
inductive Direction where
  | outgoing
  | incoming
deriving DecidableEq

/-- Line item from types.ts.  The TS field name for the unit price is price. -/
structure InvoiceItem where
  id : String
  description : String
  quantity : Int
  price : Int
deriving DecidableEq

/-- Invoice record from types.ts.  The date and dueDate fields hold the
(month, year) projection of the parsed date, or none for an invalid date. -/
structure Invoice where
  id : String
  userId : String
  direction : Direction
  clientName : String
  clientEmail : String
  date : Option (Nat × Int)
  dueDate : Option (Nat × Int)
  status : InvoiceStatus
  items : List InvoiceItem
  notes : Option String
  total : Int
  createdAt : String
deriving DecidableEq

/-- One entry of the month axis built by getLast6Months in the Dashboard:
the label, the (month, year) of the mutated date object, and the three
numeric channels initialized to zero and filled in by the chart builders. -/
structure MonthSlot where
  name : String
  year : Int
  month : Nat
  total : Int
  pending : Int
  overdue : Int
deriving DecidableEq

/-- A calendar date as the JS Date getters expose it: getFullYear,
getMonth in 0..11, getDate in 1..31. -/
structure JSDate where
  year : Int
  month : Nat
  day : Nat
deriving DecidableEq

/-- Gregorian leap-year rule, as implemented by the JS Date object. -/
def isLeapYear (y : Int) : Bool :=
  (y % 4 == 0 && y % 100 != 0) || y % 400 == 0

/-- Number of days of month m (0-indexed) of year y. -/
def daysInMonth (y : Int) (m : Nat) : Nat :=
  match m with
  | 0 => 31
  | 1 => if isLeapYear y then 29 else 28
  | 2 => 31
  | 3 => 30
  | 4 => 31
  | 5 => 30
  | 6 => 31
  | 7 => 31
  | 8 => 30
  | 9 => 31
  | 10 => 30
  | _ => 31

/-- JS d.setMonth(m): the month argument may be negative or exceed 11 and
rolls the year accordingly; a day-of-month that does not exist in the
target month then overflows into the following month (for example
June 31 becomes July 1).  Since the original day is at most 31 and every
month has at least 28 days, one overflow step suffices. -/
def jsSetMonth (d : JSDate) (m : Int) : JSDate :=
  let y := d.year + m.fdiv 12
  let mo := (m.emod 12).toNat
  if d.day ≤ daysInMonth y mo then
    ⟨y, mo, d.day⟩
  else if mo = 11 then
    ⟨y + 1, 0, d.day - daysInMonth y mo⟩
  else
    ⟨y, mo + 1, d.day - daysInMonth y mo⟩

/-- Short month names produced by toLocaleString with the default locale
for the month:short option. -/
def monthShortName (m : Nat) : String :=
  match m with
  | 0 => "Jan"
  | 1 => "Feb"
  | 2 => "Mar"
  | 3 => "Apr"
  | 4 => "May"
  | 5 => "Jun"
  | 6 => "Jul"
  | 7 => "Aug"
  | 8 => "Sep"
  | 9 => "Oct"
  | 10 => "Nov"
  | _ => "Dec"

/-- getLast6Months from the Dashboard: for i = 5 down to 0, take a fresh
current date, mutate it with setMonth(getMonth() - i), and push a slot
holding the label and the mutated date with zeroed channels. -/
def getLast6Months (now : JSDate) : List MonthSlot :=
  (List.range 6).map fun k =>
    let i : Int := 5 - (k : Int)
    let d := jsSetMonth now ((now.month : Int) - i)
    { name := monthShortName d.month
      year := d.year
      month := d.month
      total := 0
      pending := 0
      overdue := 0 }

/-- The reduce((sum, inv) => sum + inv.total, 0) pattern used by all four
summary scalars and both chart builders. -/
def reduceTotal (invoices : List Invoice) : Int :=
  invoices.foldl (fun sum inv => sum + inv.total) 0

/-- totalIncome from the Dashboard: outgoing, status not draft. -/
def totalIncome (invoices : List Invoice) : Int :=
  reduceTotal (invoices.filter fun inv =>
    decide (inv.direction = Direction.outgoing ∧ inv.status ≠ InvoiceStatus.draft))

/-- totalExpense from the Dashboard: incoming, status not draft. -/
def totalExpense (invoices : List Invoice) : Int :=
  reduceTotal (invoices.filter fun inv =>
    decide (inv.direction = Direction.incoming ∧ inv.status ≠ InvoiceStatus.draft))

/-- pendingIncome from the Dashboard: outgoing with status pending. -/
def pendingIncome (invoices : List Invoice) : Int :=
  reduceTotal (invoices.filter fun inv =>
    decide (inv.direction = Direction.outgoing ∧ inv.status = InvoiceStatus.pending))

/-- overdueIncome from the Dashboard: outgoing with status overdue. -/
def overdueIncome (invoices : List Invoice) : Int :=
  reduceTotal (invoices.filter fun inv =>
    decide (inv.direction = Direction.outgoing ∧ inv.status = InvoiceStatus.overdue))

/-- The month-membership test of both chart builders: the record belongs
to a slot when getMonth and getFullYear of new Date(inv.date) equal the
month and year of the slots fullDate.  An invalid date never matches. -/
def inMonth (slot : MonthSlot) (inv : Invoice) : Bool :=
  decide (inv.date = some (slot.month, slot.year))

/-- barChartData from the Dashboard: per axis slot, filter the invoices
issued in that slots month and sum the totals of the outgoing non-draft
ones into the total channel. -/
def barChartData (invoices : List Invoice) (now : JSDate) : List MonthSlot :=
  (getLast6Months now).map fun month =>
    let monthInvoices := invoices.filter (inMonth month)
    let income := reduceTotal (monthInvoices.filter fun inv =>
      decide (inv.direction = Direction.outgoing ∧ inv.status ≠ InvoiceStatus.draft))
    { month with total := income }

/-- lineChartData from the Dashboard: per axis slot, filter the invoices
issued in that slots month and sum the totals of the pending ones and of
the overdue ones, with no direction condition. -/
def lineChartData (invoices : List Invoice) (now : JSDate) : List MonthSlot :=
  (getLast6Months now).map fun month =>
    let monthInvoices := invoices.filter (inMonth month)
    let pending := reduceTotal (monthInvoices.filter fun inv =>
      decide (inv.status = InvoiceStatus.pending))
    let overdue := reduceTotal (monthInvoices.filter fun inv =>
      decide (inv.status = InvoiceStatus.overdue))
    { month with pending := pending, overdue := overdue }

/-- The whole structured value the Dashboard derives from the invoice
list and the current date. -/
structure DashboardOutput where
  totalIncome : Int
  totalExpense : Int
  pendingIncome : Int
  overdueIncome : Int
  barData : List MonthSlot
  lineData : List MonthSlot
deriving DecidableEq

/-- The full aggregation the Dashboard performs on render: the four
scalars and the two series, all from the invoice list and the current
wall-clock date. -/
def dashboard (invoices : List Invoice) (now : JSDate) : DashboardOutput :=
  { totalIncome := totalIncome invoices
    totalExpense := totalExpense invoices
    pendingIncome := pendingIncome invoices
    overdueIncome := overdueIncome invoices
    barData := barChartData invoices now
    lineData := lineChartData invoices now }

/-- calculateTotal from InvoiceEditor.tsx: reduce over the line items of
quantity times price, starting from 0. -/
def calculateTotal (items : List InvoiceItem) : Int :=
  items.foldl (fun sum item => sum + item.quantity * item.price) 0

/-- The editor form state fields that handleSubmit reads.  The direction
field is initialized to outgoing and always holds a Direction value, so
the JS fallback formData.direction or outgoing is the identity here. -/
structure EditorForm where
  direction : Direction
  clientName : String
  clientEmail : String
  date : Option (Nat × Int)
  dueDate : Option (Nat × Int)
  status : InvoiceStatus
  notes : Option String

/-- handleSubmit from InvoiceEditor.tsx: guard on an empty client name or
an empty item list, then build the invoice to save with total set to
calculateTotal over the current items.  nowId stands for Date.now() as a
string and nowIso for the current ISO timestamp. -/
def handleSubmit (initialData : Option Invoice) (userId : String)
    (form : EditorForm) (items : List InvoiceItem)
    (nowId : String) (nowIso : String) : Option Invoice :=
  if form.clientName = "" ∨ items = [] then
    none
  else
    let total := calculateTotal items
    some
      { id := match initialData with
              | some prev => if prev.id = "" then "inv_" ++ nowId else prev.id
              | none => "inv_" ++ nowId
        userId := userId
        createdAt := match initialData with
              | some prev => if prev.createdAt = "" then nowIso else prev.createdAt
              | none => nowIso
        direction := form.direction
        clientName := form.clientName
        clientEmail := form.clientEmail
        date := form.date
        dueDate := form.dueDate
        status := form.status
        items := items
        notes := form.notes
        total := total }

/-- The snake-case payload saveInvoice in storage.ts sends to the
database; the id and created_at columns are left to the database. -/
structure DbPayload where
  user_id : String
  direction : Direction
  client_name : String
  client_email : String
  date : Option (Nat × Int)
  due_date : Option (Nat × Int)
  status : InvoiceStatus
  items : List InvoiceItem
  notes : Option String
  total : Int
deriving DecidableEq

/-- The camelCase to snake_case mapping inside saveInvoice in
storage.ts: every field, the total included, is passed through
unchanged. -/
def toDbPayload (invoice : Invoice) : DbPayload :=
  { user_id := invoice.userId
    direction := invoice.direction
    client_name := invoice.clientName
    client_email := invoice.clientEmail
    date := invoice.date
    due_date := invoice.dueDate
    status := invoice.status
    items := invoice.items
    notes := invoice.notes
    total := invoice.total }

/-- A row as returned by the database: the payload columns plus the
generated id and created_at. -/
structure DbRow extends DbPayload where
  id : String
  created_at : String
deriving DecidableEq

/-- The row-to-frontend mapping used both by getInvoices and by the tail
of saveInvoice in storage.ts: plain field renaming, the stored total is
taken as is and never recomputed from the items column. -/
def rowToInvoice (row : DbRow) : Invoice :=
  { id := row.id
    userId := row.user_id
    direction := row.direction
    clientName := row.client_name
    clientEmail := row.client_email
    date := row.date
    dueDate := row.due_date
    status := row.status
    items := row.items
    notes := row.notes
    total := row.total
    createdAt := row.created_at }

/-- The value of the JS expression Number(x): either a rational number or
NaN.  Number of a missing field (undefined) is NaN. -/
inductive JSNum where
  | nan
  | num (value : Int)
deriving DecidableEq

/-- One spreadsheet row as sheet_to_json hands it to the import mapping
in the InvoiceList component: the four fields the mapping inspects, with
none standing for a missing column, plus the raw cells the spread
operator passes through untouched. -/
structure ImportRow where
  id : String
  userId : String
  clientName : String
  clientEmail : String
  date : String
  dueDate : String
  status : String
  direction : Option String
  items : Option String
  total : JSNum
  createdAt : Option String
deriving DecidableEq

/-- The invoice shape the import mapping produces.  The direction stays a
raw string: the mapping defaults it but does not validate it. -/
structure ImportedInvoice where
  id : String
  userId : String
  clientName : String
  clientEmail : String
  date : String
  dueDate : String
  status : String
  direction : String
  items : List InvoiceItem
  total : Int
  createdAt : String
deriving DecidableEq

/-- The row normalization inside handleFileChange in the InvoiceList
component.  JS truthiness drives each default: a missing or empty
direction becomes outgoing, items is JSON.parse of a present non-empty
items cell and the empty list otherwise (parseItems stands for
JSON.parse on a cell that parses), Number(row.total) or 0 collapses NaN
and 0 to 0, and a missing or empty createdAt becomes the current ISO
timestamp nowIso. -/
def normalizeRow (parseItems : String → List InvoiceItem) (nowIso : String)
    (row : ImportRow) : ImportedInvoice :=
  { id := row.id
    userId := row.userId
    clientName := row.clientName
    clientEmail := row.clientEmail
    date := row.date
    dueDate := row.dueDate
    status := row.status
    direction := match row.direction with
      | some s => if s = "" then "outgoing" else s
      | none => "outgoing"
    items := match row.items with
      | some s => if s = "" then [] else parseItems s
      | none => []
    total := match row.total with
      | JSNum.nan => 0
      | JSNum.num v => if v = 0 then 0 else v
    createdAt := match row.createdAt with
      | some s => if s = "" then nowIso else s
      | none => nowIso }

/-- The data.map step of handleFileChange: every row is normalized, none
is dropped. -/
def importRows (parseItems : String → List InvoiceItem) (nowIso : String)
    (rows : List ImportRow) : List ImportedInvoice :=
  rows.map (normalizeRow parseItems nowIso)

/-! ### Helper lemmas -/

/-- The reduce pattern starting from an accumulator equals the
accumulator plus the list sum of the mapped values. -/
theorem foldl_add_eq_sum {α : Type} (f : α → Int) :
    ∀ (l : List α) (a : Int), l.foldl (fun s x => s + f x) a = a + (l.map f).sum := by
  intro l
  induction l with
  | nil => simp
  | cons x xs ih =>
    intro a
    simp [List.foldl_cons, ih, add_assoc]

theorem reduceTotal_eq_sum (l : List Invoice) :
    reduceTotal l = (l.map Invoice.total).sum := by
  simpa using foldl_add_eq_sum Invoice.total l 0

theorem calculateTotal_eq_sum (items : List InvoiceItem) :
    calculateTotal items = (items.map fun item => item.quantity * item.price).sum := by
  simpa using foldl_add_eq_sum (fun item => item.quantity * item.price) items 0

/-- Filtering a mapped list through a predicate the map does not disturb
is mapping the filtered list. -/
theorem map_filter_swap (f : Invoice → Invoice) (p : Invoice → Bool)
    (hp : ∀ inv, p (f inv) = p inv) :
    ∀ l : List Invoice, (l.map f).filter p = (l.filter p).map f := by
  intro l
  induction l with
  | nil => rfl
  | cons x xs ih =>
    simp only [List.map_cons, List.filter_cons, hp]
    cases p x <;> simp [ih]

/-- A record-by-record transformation that keeps the total keeps the
reduce of totals. -/
theorem reduceTotal_map (f : Invoice → Invoice)
    (ht : ∀ inv, (f inv).total = inv.total) (l : List Invoice) :
    reduceTotal (l.map f) = reduceTotal l := by
  simp only [reduceTotal_eq_sum, List.map_map]
  exact congrArg List.sum (List.map_congr_left fun a _ => ht a)

/-! ### Demo data used by the concrete witnesses -/

/-- Outgoing paid invoice over 500 issued in October 2025. -/
def rec500 : Invoice :=
  { id := "a1", userId := "u1", direction := Direction.outgoing,
    clientName := "Acme", clientEmail := "a@x.io",
    date := some (9, 2025), dueDate := some (10, 2025),
    status := InvoiceStatus.paid, items := [], notes := none,
    total := 500, createdAt := "t1" }

/-- Incoming paid bill over 200 issued in October 2025. -/
def rec200 : Invoice :=
  { id := "a2", userId := "u1", direction := Direction.incoming,
    clientName := "Vendor", clientEmail := "v@x.io",
    date := some (9, 2025), dueDate := some (10, 2025),
    status := InvoiceStatus.paid, items := [], notes := none,
    total := 200, createdAt := "t2" }

/-- Outgoing pending invoice over 100 issued in October 2025. -/
def rec100 : Invoice :=
  { id := "a3", userId := "u1", direction := Direction.outgoing,
    clientName := "Beta", clientEmail := "b@x.io",
    date := some (9, 2025), dueDate := some (10, 2025),
    status := InvoiceStatus.pending, items := [], notes := none,
    total := 100, createdAt := "t3" }

/-- Outgoing draft invoice over 1000 issued in October 2025. -/
def recDraft : Invoice :=
  { id := "a4", userId := "u1", direction := Direction.outgoing,
    clientName := "Gamma", clientEmail := "g@x.io",
    date := some (9, 2025), dueDate := some (10, 2025),
    status := InvoiceStatus.draft, items := [], notes := none,
    total := 1000, createdAt := "t4" }

/-- Outgoing paid invoice with a negative total. -/
def recNeg : Invoice :=
  { id := "a5", userId := "u1", direction := Direction.outgoing,
    clientName := "Delta", clientEmail := "d@x.io",
    date := some (9, 2025), dueDate := some (10, 2025),
    status := InvoiceStatus.paid, items := [], notes := none,
    total := -50, createdAt := "t5" }

/-- Invoice whose issueDate string does not parse: new Date gives an
Invalid Date, so the (month, year) projection is none. -/
def badInvoice : Invoice :=
  { id := "inv-bad", userId := "u1", direction := Direction.outgoing,
    clientName := "Eps", clientEmail := "e@x.io",
    date := none, dueDate := some (10, 2025),
    status := InvoiceStatus.pending, items := [], notes := none,
    total := 50, createdAt := "t6" }

/-- The invoice list of the worked example of the spec. -/
def demoInvoices : List Invoice := [rec500, rec200, rec100]

/-- A current date on which no setMonth overflow occurs: October 15, 2025. -/
def demoNow : JSDate := ⟨2025, 9, 15⟩

/-! ### Claims -/

/-- Claim C1: the four summary scalars are the sums of the total field
over the documented (direction, status) classes: totalIncome over
outgoing non-draft records, totalExpense over incoming non-draft
records, pendingIncome over outgoing pending records, overdueIncome over
outgoing overdue records; a draft record never moves totalIncome or
totalExpense, and a matching record with any total, zero or negative
included, contributes exactly its total. -/
theorem C1_summary_scalars (invoices : List Invoice) :
    totalIncome invoices =
      ((invoices.filter fun inv =>
        decide (inv.direction = Direction.outgoing ∧
          inv.status ≠ InvoiceStatus.draft)).map Invoice.total).sum ∧
    totalExpense invoices =
      ((invoices.filter fun inv =>
        decide (inv.direction = Direction.incoming ∧
          inv.status ≠ InvoiceStatus.draft)).map Invoice.total).sum ∧
    pendingIncome invoices =
      ((invoices.filter fun inv =>
        decide (inv.direction = Direction.outgoing ∧
          inv.status = InvoiceStatus.pending)).map Invoice.total).sum ∧
    overdueIncome invoices =
      ((invoices.filter fun inv =>
        decide (inv.direction = Direction.outgoing ∧
          inv.status = InvoiceStatus.overdue)).map Invoice.total).sum ∧
    (∀ inv : Invoice, inv.status = InvoiceStatus.draft →
      totalIncome (inv :: invoices) = totalIncome invoices ∧
      totalExpense (inv :: invoices) = totalExpense invoices) ∧
    (∀ inv : Invoice, inv.direction = Direction.outgoing →
      inv.status ≠ InvoiceStatus.draft →
      totalIncome (inv :: invoices) = inv.total + totalIncome invoices) := by
  refine ⟨reduceTotal_eq_sum _, reduceTotal_eq_sum _, reduceTotal_eq_sum _,
    reduceTotal_eq_sum _, ?_, ?_⟩
  · intro inv hdraft
    constructor <;>
      simp [totalIncome, totalExpense, List.filter_cons, hdraft]
  · intro inv hdir hstat
    simp [totalIncome, List.filter_cons, hdir, hstat, reduceTotal_eq_sum]

/-- Witness for C1 at the worked example of the spec, a draft record and
a negative-total record. -/
theorem C1_summary_scalars_witness :
    (totalIncome (recDraft :: demoInvoices) = totalIncome demoInvoices ∧
      totalExpense (recDraft :: demoInvoices) = totalExpense demoInvoices) ∧
    totalIncome (recNeg :: demoInvoices) = recNeg.total + totalIncome demoInvoices ∧
    totalIncome demoInvoices =
      ((demoInvoices.filter fun inv =>
        decide (inv.direction = Direction.outgoing ∧
          inv.status ≠ InvoiceStatus.draft)).map Invoice.total).sum :=
  ⟨(C1_summary_scalars demoInvoices).2.2.2.2.1 recDraft (by decide),
   (C1_summary_scalars demoInvoices).2.2.2.2.2 recNeg (by decide) (by decide),
   (C1_summary_scalars demoInvoices).1⟩

/-- Claim C5: the difference of totalIncome and totalExpense is invariant
under any permutation of the input list. -/
theorem C5_order_independent (l₁ l₂ : List Invoice) (h : l₁.Perm l₂) :
    totalIncome l₁ - totalExpense l₁ = totalIncome l₂ - totalExpense l₂ := by
  have hinc : totalIncome l₁ = totalIncome l₂ := by
    simp only [totalIncome, reduceTotal_eq_sum]
    exact ((h.filter _).map Invoice.total).sum_eq
  have hexp : totalExpense l₁ = totalExpense l₂ := by
    simp only [totalExpense, reduceTotal_eq_sum]
    exact ((h.filter _).map Invoice.total).sum_eq
  rw [hinc, hexp]

/-- Witness for C5 on a concrete reordering of the demo list. -/
theorem C5_order_independent_witness :
    totalIncome demoInvoices - totalExpense demoInvoices =
      totalIncome [rec100, rec200, rec500] - totalExpense [rec100, rec200, rec500] :=
  C5_order_independent demoInvoices [rec100, rec200, rec500] (by decide)

/-- Claim C2 fails on the code: on October 31, 2025 the axis built by
getLast6Months is May, July, July, August, October, October of 2025; the
setMonth call on a fresh current date rolls a day-of-month that exceeds
the target month into the following month, so June and September are
skipped and July and October are duplicated.  The series does keep
exactly 6 entries.  The claim requires the current month and the 5
preceding ones, each exactly once, which the same evaluation refutes. -/
theorem C2_month_axis_day_overflow :
    ((getLast6Months ⟨2025, 9, 31⟩).map fun s => (s.month, s.year)) =
      [(4, 2025), (6, 2025), (6, 2025), (7, 2025), (9, 2025), (9, 2025)] ∧
    ((getLast6Months ⟨2025, 9, 31⟩).map fun s => (s.month, s.year)) ≠
      [(4, 2025), (5, 2025), (6, 2025), (7, 2025), (8, 2025), (9, 2025)] ∧
    (getLast6Months ⟨2025, 9, 31⟩).length = 6 ∧
    ((getLast6Months demoNow).map fun s => (s.month, s.year)) =
      [(4, 2025), (5, 2025), (6, 2025), (7, 2025), (8, 2025), (9, 2025)] := by
  decide

/-- Claim C6 fails on the code: two invocations inside the same calendar
month need not agree, because the month axis depends on the current
day-of-month.  With an empty invoice list, October 15 and October 31 of
2025 give different outputs.  The intended property, that the wall-clock
date enters only through its calendar month, is broken by the same
setMonth day overflow as in the axis construction. -/
theorem C6_same_month_not_idempotent :
    dashboard [] ⟨2025, 9, 15⟩ ≠ dashboard [] ⟨2025, 9, 31⟩ := by
  decide

/-- Claim C7: a record contributes its total to a scalar exactly when it
is in the documented (direction, status) class of that scalar; the
income and expense classes are disjoint, the pending and overdue classes
are disjoint, every pending contributor to pendingIncome is also a
contributor to totalIncome, and the status enum makes exactly one of the
four status cases hold. -/
theorem C7_contribution_exclusive (inv : Invoice) (invoices : List Invoice) :
    (totalIncome (inv :: invoices) =
      (if inv.direction = Direction.outgoing ∧ inv.status ≠ InvoiceStatus.draft
        then inv.total else 0) + totalIncome invoices) ∧
    (totalExpense (inv :: invoices) =
      (if inv.direction = Direction.incoming ∧ inv.status ≠ InvoiceStatus.draft
        then inv.total else 0) + totalExpense invoices) ∧
    (pendingIncome (inv :: invoices) =
      (if inv.direction = Direction.outgoing ∧ inv.status = InvoiceStatus.pending
        then inv.total else 0) + pendingIncome invoices) ∧
    (overdueIncome (inv :: invoices) =
      (if inv.direction = Direction.outgoing ∧ inv.status = InvoiceStatus.overdue
        then inv.total else 0) + overdueIncome invoices) ∧
    ¬((inv.direction = Direction.outgoing ∧ inv.status ≠ InvoiceStatus.draft) ∧
      (inv.direction = Direction.incoming ∧ inv.status ≠ InvoiceStatus.draft)) ∧
    ¬((inv.direction = Direction.outgoing ∧ inv.status = InvoiceStatus.pending) ∧
      (inv.direction = Direction.outgoing ∧ inv.status = InvoiceStatus.overdue)) ∧
    ((inv.direction = Direction.outgoing ∧ inv.status = InvoiceStatus.pending) →
      (inv.direction = Direction.outgoing ∧ inv.status ≠ InvoiceStatus.draft)) ∧
    (inv.status = InvoiceStatus.draft ∨ inv.status = InvoiceStatus.pending ∨
      inv.status = InvoiceStatus.paid ∨ inv.status = InvoiceStatus.overdue) := by
  cases hd : inv.direction <;> cases hs : inv.status <;>
    simp [totalIncome, totalExpense, pendingIncome, overdueIncome,
      List.filter_cons, hd, hs, reduceTotal_eq_sum]

/-- Witness for C7 at the pending record of the demo list. -/
theorem C7_contribution_exclusive_witness :
    (pendingIncome (rec100 :: [rec500]) =
      (if rec100.direction = Direction.outgoing ∧
          rec100.status = InvoiceStatus.pending
        then rec100.total else 0) + pendingIncome [rec500]) ∧
    (rec100.direction = Direction.outgoing ∧
      rec100.status ≠ InvoiceStatus.draft) :=
  ⟨(C7_contribution_exclusive rec100 [rec500]).2.2.1,
   (C7_contribution_exclusive rec100 [rec500]).2.2.2.2.2.2.1 (by decide)⟩

/-- Value carried by a slot of the revenue series, as a sum over the
issue-date month filter composed with the income filter. -/
theorem barChartData_slot_total (invoices : List Invoice) (now : JSDate)
    {slot : MonthSlot} (h : slot ∈ barChartData invoices now) :
    slot.total = (((invoices.filter (inMonth slot)).filter fun inv =>
      decide (inv.direction = Direction.outgoing ∧
        inv.status ≠ InvoiceStatus.draft)).map Invoice.total).sum := by
  simp only [barChartData, List.mem_map] at h
  obtain ⟨m, hm, rfl⟩ := h
  simp [inMonth, reduceTotal_eq_sum]

/-- Values carried by a slot of the pending and overdue series. -/
theorem lineChartData_slot_values (invoices : List Invoice) (now : JSDate)
    {slot : MonthSlot} (h : slot ∈ lineChartData invoices now) :
    slot.pending = (((invoices.filter (inMonth slot)).filter fun inv =>
      decide (inv.status = InvoiceStatus.pending)).map Invoice.total).sum ∧
    slot.overdue = (((invoices.filter (inMonth slot)).filter fun inv =>
      decide (inv.status = InvoiceStatus.overdue)).map Invoice.total).sum := by
  simp only [lineChartData, List.mem_map] at h
  obtain ⟨m, hm, rfl⟩ := h
  constructor <;> simp [inMonth, reduceTotal_eq_sum]

/-- The revenue series ignores a record transformation that keeps the
issue date, the direction, the status and the total. -/
theorem barChartData_map_eq (f : Invoice → Invoice)
    (hdate : ∀ inv, (f inv).date = inv.date)
    (hdir : ∀ inv, (f inv).direction = inv.direction)
    (hstat : ∀ inv, (f inv).status = inv.status)
    (ht : ∀ inv, (f inv).total = inv.total)
    (invoices : List Invoice) (now : JSDate) :
    barChartData (invoices.map f) now = barChartData invoices now := by
  unfold barChartData
  refine List.map_congr_left fun m _ => ?_
  have h1 : (invoices.map f).filter (inMonth m) =
      (invoices.filter (inMonth m)).map f :=
    map_filter_swap f _ (fun inv => by simp [inMonth, hdate]) invoices
  have h2 : ∀ l : List Invoice,
      (l.map f).filter (fun inv =>
        decide (inv.direction = Direction.outgoing ∧
          inv.status ≠ InvoiceStatus.draft)) =
      (l.filter fun inv =>
        decide (inv.direction = Direction.outgoing ∧
          inv.status ≠ InvoiceStatus.draft)).map f :=
    fun l => map_filter_swap f _ (fun inv => by simp [hdir, hstat]) l
  simp only [h1, h2, reduceTotal_map f ht]

/-- The pending and overdue series ignore a record transformation that
keeps the issue date, the status and the total. -/
theorem lineChartData_map_eq (f : Invoice → Invoice)
    (hdate : ∀ inv, (f inv).date = inv.date)
    (hstat : ∀ inv, (f inv).status = inv.status)
    (ht : ∀ inv, (f inv).total = inv.total)
    (invoices : List Invoice) (now : JSDate) :
    lineChartData (invoices.map f) now = lineChartData invoices now := by
  unfold lineChartData
  refine List.map_congr_left fun m _ => ?_
  have h1 : (invoices.map f).filter (inMonth m) =
      (invoices.filter (inMonth m)).map f :=
    map_filter_swap f _ (fun inv => by simp [inMonth, hdate]) invoices
  have h2 : ∀ l : List Invoice,
      (l.map f).filter (fun inv => decide (inv.status = InvoiceStatus.pending)) =
      (l.filter fun inv => decide (inv.status = InvoiceStatus.pending)).map f :=
    fun l => map_filter_swap f _ (fun inv => by simp [hstat]) l
  have h3 : ∀ l : List Invoice,
      (l.map f).filter (fun inv => decide (inv.status = InvoiceStatus.overdue)) =
      (l.filter fun inv => decide (inv.status = InvoiceStatus.overdue)).map f :=
    fun l => map_filter_swap f _ (fun inv => by simp [hstat]) l
  simp only [h1, h2, h3, reduceTotal_map f ht]

/-- Claim C3: bucketing is by the (month, year) of the issue date only:
each slot of either series carries the sum over records whose issue date
matches the slots month and year, both series always expose 6 slots, a
slot with no matching record carries zero rather than being absent, the
due date is irrelevant to both series, and empty input gives four zero
scalars and six zero-valued slots in each series. -/
theorem C3_issue_date_bucketing (invoices : List Invoice) (now : JSDate) :
    ((barChartData invoices now).length = 6 ∧
      (lineChartData invoices now).length = 6) ∧
    (∀ slot ∈ barChartData invoices now,
      slot.total = (((invoices.filter (inMonth slot)).filter fun inv =>
        decide (inv.direction = Direction.outgoing ∧
          inv.status ≠ InvoiceStatus.draft)).map Invoice.total).sum) ∧
    (∀ slot ∈ barChartData invoices now,
      invoices.filter (inMonth slot) = [] → slot.total = 0) ∧
    (∀ slot ∈ lineChartData invoices now,
      invoices.filter (inMonth slot) = [] →
        slot.pending = 0 ∧ slot.overdue = 0) ∧
    (∀ due : Option (Nat × Int),
      barChartData (invoices.map fun inv => { inv with dueDate := due }) now =
        barChartData invoices now ∧
      lineChartData (invoices.map fun inv => { inv with dueDate := due }) now =
        lineChartData invoices now) ∧
    (totalIncome [] = 0 ∧ totalExpense [] = 0 ∧ pendingIncome [] = 0 ∧
      overdueIncome [] = 0 ∧
      (barChartData [] now).map MonthSlot.total = [0, 0, 0, 0, 0, 0] ∧
      (lineChartData [] now).map (fun s => (s.pending, s.overdue)) =
        [(0, 0), (0, 0), (0, 0), (0, 0), (0, 0), (0, 0)]) := by
  refine ⟨⟨?_, ?_⟩, ?_, ?_, ?_, ?_, ?_⟩
  · rfl
  · rfl
  · intro slot h
    exact barChartData_slot_total invoices now h
  · intro slot h hempty
    rw [barChartData_slot_total invoices now h, hempty]
    rfl
  · intro slot h hempty
    obtain ⟨hp, ho⟩ := lineChartData_slot_values invoices now h
    rw [hp, ho, hempty]
    exact ⟨rfl, rfl⟩
  · intro due
    exact ⟨barChartData_map_eq (fun inv => { inv with dueDate := due })
        (fun _ => rfl) (fun _ => rfl) (fun _ => rfl) (fun _ => rfl) invoices now,
      lineChartData_map_eq (fun inv => { inv with dueDate := due })
        (fun _ => rfl) (fun _ => rfl) (fun _ => rfl) invoices now⟩
  · exact ⟨rfl, rfl, rfl, rfl, rfl, rfl⟩

/-- Witness for C3: due-date irrelevance on the demo list, and a
zero-valued May 2025 slot of the revenue series on empty input. -/
theorem C3_issue_date_bucketing_witness :
    (barChartData (demoInvoices.map fun inv => { inv with dueDate := none })
        demoNow = barChartData demoInvoices demoNow) ∧
    (⟨"May", 2025, 4, 0, 0, 0⟩ : MonthSlot).total = 0 :=
  ⟨((C3_issue_date_bucketing demoInvoices demoNow).2.2.2.2.1 none).1,
   (C3_issue_date_bucketing [] demoNow).2.2.1 ⟨"May", 2025, 4, 0, 0, 0⟩
     (by decide) rfl⟩

/-- Direction swap used to state that the pending and overdue series do
not read the direction field. -/
def flipDirection : Direction → Direction
  | Direction.outgoing => Direction.incoming
  | Direction.incoming => Direction.outgoing

/-- Claim C4: each slot of the pending and overdue series carries, for
the slots month, the sum of totals of the records issued that month with
status pending and the sum with status overdue, with the direction
playing no role; the series runs over the same 6-month axis as the
revenue series. -/
theorem C4_pending_overdue_series (invoices : List Invoice) (now : JSDate) :
    (∀ slot ∈ lineChartData invoices now,
      slot.pending = (((invoices.filter (inMonth slot)).filter fun inv =>
        decide (inv.status = InvoiceStatus.pending)).map Invoice.total).sum ∧
      slot.overdue = (((invoices.filter (inMonth slot)).filter fun inv =>
        decide (inv.status = InvoiceStatus.overdue)).map Invoice.total).sum) ∧
    ((lineChartData invoices now).map (fun s => (s.name, s.month, s.year)) =
      (getLast6Months now).map fun s => (s.name, s.month, s.year)) ∧
    (lineChartData (invoices.map fun inv =>
        { inv with direction := flipDirection inv.direction }) now =
      lineChartData invoices now) := by
  refine ⟨fun slot h => lineChartData_slot_values invoices now h, rfl, ?_⟩
  exact lineChartData_map_eq
    (fun inv => { inv with direction := flipDirection inv.direction })
    (fun _ => rfl) (fun _ => rfl) (fun _ => rfl) invoices now

/-- Witness for C4 at the October 2025 slot of the demo list: the
pending channel holds 100 and the overdue channel 0. -/
theorem C4_pending_overdue_series_witness :
    ((⟨"Oct", 2025, 9, 0, 100, 0⟩ : MonthSlot).pending =
      (((demoInvoices.filter (inMonth ⟨"Oct", 2025, 9, 0, 100, 0⟩)).filter
        fun inv => decide (inv.status = InvoiceStatus.pending)).map
        Invoice.total).sum) ∧
    lineChartData (demoInvoices.map fun inv =>
        { inv with direction := flipDirection inv.direction }) demoNow =
      lineChartData demoInvoices demoNow :=
  ⟨((C4_pending_overdue_series demoInvoices demoNow).1
      ⟨"Oct", 2025, 9, 0, 100, 0⟩ (by decide)).1,
   (C4_pending_overdue_series demoInvoices demoNow).2.2⟩

/-- Counterexample to Claim C8: on a record whose issueDate does not
parse, the aggregator does not fail fast and raises no error naming the
record: evaluated on the concrete list holding only badInvoice, the
Dashboard computation returns a normal output in which the unparseable
record still counts 50 toward totalIncome and pendingIncome while every
slot of both monthly series silently stays at zero.  No code path in the
Dashboard can throw: the computation is a total function of its input. -/
theorem C8_no_fail_fast_counterexample :
    (dashboard [badInvoice] demoNow).totalIncome = 50 ∧
    (dashboard [badInvoice] demoNow).pendingIncome = 50 ∧
    (dashboard [badInvoice] demoNow).barData.map MonthSlot.total =
      [0, 0, 0, 0, 0, 0] ∧
    (dashboard [badInvoice] demoNow).lineData.map MonthSlot.pending =
      [0, 0, 0, 0, 0, 0] := by
  decide

/-- Claim C8 as amended: given well-typed input the aggregator cannot
fail, and on a record with an unparseable issueDate it still does not
fail: it returns normally, silently excluding the record from every
monthly bucket of both series while the record keeps counting toward the
summary scalars of its (direction, status) class. -/
theorem C8_invalid_date_silent (inv : Invoice) (invoices : List Invoice)
    (now : JSDate) (hdate : inv.date = none) :
    barChartData (inv :: invoices) now = barChartData invoices now ∧
    lineChartData (inv :: invoices) now = lineChartData invoices now ∧
    (inv.direction = Direction.outgoing → inv.status ≠ InvoiceStatus.draft →
      totalIncome (inv :: invoices) = inv.total + totalIncome invoices) := by
  have hmem : ∀ m : MonthSlot, inMonth m inv = false := by
    intro m
    simp [inMonth, hdate]
  refine ⟨?_, ?_, ?_⟩
  · unfold barChartData
    refine List.map_congr_left fun m _ => ?_
    simp only [List.filter_cons, hmem, Bool.false_eq_true, if_false]
  · unfold lineChartData
    refine List.map_congr_left fun m _ => ?_
    simp only [List.filter_cons, hmem, Bool.false_eq_true, if_false]
  · intro hdir hstat
    simp [totalIncome, List.filter_cons, hdir, hstat, reduceTotal_eq_sum]

/-- Witness for the amended C8 at badInvoice. -/
theorem C8_invalid_date_silent_witness :
    barChartData [badInvoice] demoNow = barChartData [] demoNow ∧
    totalIncome [badInvoice] = badInvoice.total + totalIncome [] :=
  ⟨(C8_invalid_date_silent badInvoice [] demoNow rfl).1,
   (C8_invalid_date_silent badInvoice [] demoNow rfl).2.2 rfl (by decide)⟩

/-- Claim C9: an invoice the editor saves carries a total equal to the
sum over its line items of quantity times price computed at save time,
the database payload mapping persists that total unchanged, and the
read mapping takes the stored total as is without recomputing it from
the stored items. -/
theorem C9_total_is_item_sum (initialData : Option Invoice) (userId : String)
    (form : EditorForm) (items : List InvoiceItem) (nowId nowIso : String)
    (inv : Invoice)
    (h : handleSubmit initialData userId form items nowId nowIso = some inv) :
    inv.total = (inv.items.map fun item => item.quantity * item.price).sum ∧
    (toDbPayload inv).total = inv.total ∧
    (∀ row : DbRow, (rowToInvoice row).total = row.total) := by
  unfold handleSubmit at h
  split at h
  · exact absurd h (by simp)
  · refine ⟨?_, rfl, fun row => rfl⟩
    obtain rfl : _ = inv := Option.some.inj h
    exact calculateTotal_eq_sum items

/-- Editor form of the concrete C9 witness. -/
def demoForm : EditorForm :=
  { direction := Direction.outgoing, clientName := "Acme",
    clientEmail := "a@x.io", date := some (9, 2025),
    dueDate := some (10, 2025), status := InvoiceStatus.pending,
    notes := none }

/-- Line items of the concrete C9 witness: 2 x 30 and 3 x 10. -/
def demoItems : List InvoiceItem :=
  [⟨"i1", "design", 2, 30⟩, ⟨"i2", "hosting", 3, 10⟩]

/-- The invoice handleSubmit builds from demoForm and demoItems. -/
def demoSaved : Invoice :=
  { id := "inv_77", userId := "u1", direction := Direction.outgoing,
    clientName := "Acme", clientEmail := "a@x.io",
    date := some (9, 2025), dueDate := some (10, 2025),
    status := InvoiceStatus.pending, items := demoItems, notes := none,
    total := 90, createdAt := "iso1" }

/-- Witness for C9: the saved demo invoice has total 90 = 2 x 30 + 3 x 10
and the persistence mappings pass it through. -/
theorem C9_total_is_item_sum_witness :
    demoSaved.total =
      (demoSaved.items.map fun item => item.quantity * item.price).sum ∧
    (toDbPayload demoSaved).total = demoSaved.total :=
  ⟨(C9_total_is_item_sum none "u1" demoForm demoItems "77" "iso1" demoSaved
      (by decide)).1,
   (C9_total_is_item_sum none "u1" demoForm demoItems "77" "iso1" demoSaved
      (by decide)).2.1⟩

/-- Claim C10: the import normalization maps every row and rejects none,
defaulting a missing direction to outgoing, a missing items cell to the
empty list (and parsing a present non-empty one), a NaN result of the
total coercion to 0 (a numeric result is kept, 0 included), and a
missing createdAt to the current timestamp. -/
theorem C10_import_normalization (parseItems : String → List InvoiceItem)
    (nowIso : String) (rows : List ImportRow) (row : ImportRow) :
    (importRows parseItems nowIso rows).length = rows.length ∧
    (row.direction = none →
      (normalizeRow parseItems nowIso row).direction = "outgoing") ∧
    (row.items = none → (normalizeRow parseItems nowIso row).items = []) ∧
    (∀ s, row.items = some s → s ≠ "" →
      (normalizeRow parseItems nowIso row).items = parseItems s) ∧
    (row.total = JSNum.nan → (normalizeRow parseItems nowIso row).total = 0) ∧
    (∀ v, row.total = JSNum.num v →
      (normalizeRow parseItems nowIso row).total = v) ∧
    (row.createdAt = none →
      (normalizeRow parseItems nowIso row).createdAt = nowIso) := by
  refine ⟨List.length_map _ _, ?_, ?_, ?_, ?_, ?_, ?_⟩
  · intro h
    simp [normalizeRow, h]
  · intro h
    simp [normalizeRow, h]
  · intro s h hne
    simp [normalizeRow, h, hne]
  · intro h
    simp [normalizeRow, h]
  · intro v h
    simp only [normalizeRow, h]
    split <;> simp_all
  · intro h
    simp [normalizeRow, h]

/-- A spreadsheet row missing the direction, items, total and createdAt
columns. -/
def demoRow : ImportRow :=
  { id := "r1", userId := "u1", clientName := "Acme", clientEmail := "a@x.io",
    date := "2025-10-01", dueDate := "2025-10-08", status := "pending",
    direction := none, items := none, total := JSNum.nan, createdAt := none }

/-- Witness for C10 on demoRow with a trivial JSON parser. -/
theorem C10_import_normalization_witness :
    (importRows (fun _ => []) "now1" [demoRow]).length = 1 ∧
    (normalizeRow (fun _ => []) "now1" demoRow).direction = "outgoing" ∧
    (normalizeRow (fun _ => []) "now1" demoRow).items = [] ∧
    (normalizeRow (fun _ => []) "now1" demoRow).total = 0 ∧
    (normalizeRow (fun _ => []) "now1" demoRow).createdAt = "now1" :=
  ⟨(C10_import_normalization (fun _ => []) "now1" [demoRow] demoRow).1,
   (C10_import_normalization (fun _ => []) "now1" [demoRow] demoRow).2.1 rfl,
   (C10_import_normalization (fun _ => []) "now1" [demoRow] demoRow).2.2.1 rfl,
   (C10_import_normalization (fun _ => []) "now1" [demoRow] demoRow).2.2.2.2.1 rfl,
   (C10_import_normalization (fun _ => []) "now1" [demoRow] demoRow).2.2.2.2.2.2 rfl⟩
